import Mathlib

/-!
Shallow embedding of the image-intake and vision-analysis pipelines of the
xiaozhi-esp32-server repository (files `core/api/image_handler.py`,
`plugins_func/functions/ootd.py`,
`core/handle/textHandler/imageMessageHandler.py`).

Bytes are modelled as `List Nat`, byte strings in signature tables as lists of
their byte values.  Filesystem contents, the multipart stream, clock,
randomness, and the external vision-model client are passed in explicitly as
environment data, so every function of the code becomes a pure Lean function.
-/

/-- `MAX_FILE_SIZE` from `core/api/image_handler.py`: 5 MiB. -/
def MAX_FILE_SIZE : Nat := 5 * 1024 * 1024

/-- The ordered magic-byte signature table of `ImageHandler._detect_ext`
(`core/api/image_handler.py`).  Python dicts iterate in insertion order, so the
table is a list; each byte string is spelled out as its byte values. -/
def signatures : List (List Nat × String) :=
  [([0xff, 0xd8, 0xff], "jpg"),
   ([0x89, 0x50, 0x4e, 0x47, 0x0d, 0x0a, 0x1a, 0x0a], "png"),
   ([0x47, 0x49, 0x46, 0x38, 0x37, 0x61], "gif"),
   ([0x47, 0x49, 0x46, 0x38, 0x39, 0x61], "gif"),
   ([0x42, 0x4d], "bmp"),
   ([0x49, 0x49, 0x2a, 0x00], "tiff"),
   ([0x4d, 0x4d, 0x00, 0x2a], "tiff"),
   ([0x52, 0x49, 0x46, 0x46], "webp")]

/-- The `for sig, ext in signatures.items(): if data.startswith(sig): return ext`
loop of `_detect_ext`, over an explicit table. -/
def detectLoop : List (List Nat × String) → List Nat → Option String
  | [], _ => none
  | (sig, ext) :: rest, data =>
    if sig.isPrefixOf data then some ext else detectLoop rest data

/-- `ImageHandler._detect_ext`: first matching signature's extension, else `None`. -/
def detect_ext (data : List Nat) : Option String :=
  detectLoop signatures data

/-- Modelled from the spec: `is_valid_image_file` lives in
`core/utils/util.py`, which is not part of the analysed sources; the spec's
ImageValidator contract says it is true iff the payload is non-empty, at most
5 MiB, and carries a signature recognized by the sniffer. -/
def is_valid_image_file (data : List Nat) : Bool :=
  (data != []) && (data.length ≤ MAX_FILE_SIZE) && (detect_ext data).isSome

/-- Python `name.rsplit(".", 1)[-1]`: the substring after the last dot
(the whole string when no dot occurs). -/
def afterLastDot (s : String) : String :=
  String.mk ((s.toList.reverse.takeWhile (fun c => c ≠ '.')).reverse)

/-- `ImageHandler._unique_filename`: `ext` is taken from the declared filename
when that is truthy and contains a dot; a falsy (empty) extension falls back to
the sniffer, then to `"bin"`.  Clock and randomness are explicit arguments. -/
def unique_filename (millis : Nat) (hex8 : String)
    (original_filename : Option String) (data : List Nat) : String :=
  let extFromName : Option String :=
    match original_filename with
    | some name =>
      if name ≠ "" ∧ name.toList.contains '.' then
        some ((afterLastDot name).toLower)
      else none
    | none => none
  let ext : String :=
    match extFromName with
    | some e => if e = "" then (detect_ext data).getD "bin" else e
    | none => (detect_ext data).getD "bin"
  "image_" ++ toString millis ++ "_" ++ hex8 ++ "." ++ ext

/-- One part of a multipart stream: optional field name, optional declared
filename, body bytes. -/
structure FormPart where
  name : Option String
  filename : Option String
  body : List Nat
deriving DecidableEq, Repr

/-- Python truthiness of an optional string (`None` and `""` are falsy). -/
def pyTruthyStr : Option String → Bool
  | some s => s != ""
  | none => false

/-- The part-selection loop of `ImageHandler.handle_post`: the first part with
a truthy `filename`, or failing that a `name` equal to `"image"`, wins. -/
def findTarget : List FormPart → Option FormPart
  | [] => none
  | p :: rest =>
    if pyTruthyStr p.filename then some p
    else if p.name == some "image" then some p
    else findTarget rest

/-- Outcome of `await request.multipart()`: an unexpected exception, a `None`
reader, or a parsed list of parts. -/
inductive MultipartOutcome where
  | raised (msg : String)
  | noReader
  | parts (ps : List FormPart)
deriving DecidableEq, Repr

/-- Environment of one `handle_post` call: the multipart outcome, the clock and
randomness feeding `_unique_filename`, and whether the directory-creation/write
step raises an `OSError` (modelled atomically). -/
structure UploadEnv where
  multipart : MultipartOutcome
  millis : Nat
  hex8 : String
  writeError : Option String
deriving Repr

/-- Exceptions of `handle_post`: `ValueError` (anticipated validation
failures) versus anything else. -/
inductive UploadErr where
  | valueError (msg : String)
  | otherError (msg : String)
deriving DecidableEq, Repr

def msgMalformed : String := "请求格式错误，应为multipart/form-data"

def msgMissing : String := "未找到图片文件，请使用表单字段\x27image\x27上传文件"

def msgEmpty : String := "图片数据为空"

/-- Python renders `f"...{MAX_FILE_SIZE/1024/1024}MB"` with float division,
printing `5.0`. -/
def msgOversize : String := "图片大小超过限制，最大允许5.0MB"

def msgFormat : String :=
  "不支持的文件格式，请上传有效的图片文件（支持JPEG、PNG、GIF、BMP、TIFF、WEBP格式）"

def msgInternal : String := "服务器内部错误"

/-- The `try` body of `ImageHandler.handle_post`, down to the file write.
On success it returns the generated filename together with the bytes written
to disk. -/
def handle_post_try (env : UploadEnv) :
    Except UploadErr (String × List Nat) :=
  match env.multipart with
  | .raised m => .error (.otherError m)
  | .noReader => .error (.valueError msgMalformed)
  | .parts ps =>
    match findTarget ps with
    | none => .error (.valueError msgMissing)
    | some target =>
      let file_bytes := target.body
      if file_bytes = [] then .error (.valueError msgEmpty)
      else if file_bytes.length > MAX_FILE_SIZE then .error (.valueError msgOversize)
      else if ¬ is_valid_image_file file_bytes then .error (.valueError msgFormat)
      else
        match env.writeError with
        | some m => .error (.otherError m)
        | none =>
          .ok (unique_filename env.millis env.hex8 target.filename file_bytes, file_bytes)

/-- JSON body of an upload response: `{"success": true, filename, path}` or
`{"success": false, message}`. -/
inductive RespBody where
  | success (filename : String) (path : String)
  | failure (message : String)
deriving DecidableEq, Repr

structure HttpResponse where
  status : Nat
  body : RespBody
deriving DecidableEq, Repr

/-- `ImageHandler.handle_post` with its two `except` arms: `ValueError` becomes
a 400 with the exception's message, any other exception a 500 with the fixed
generic message.  The second component lists the files written to disk. -/
def handle_post (env : UploadEnv) : HttpResponse × List (String × List Nat) :=
  match handle_post_try env with
  | .ok (filename, bytes) =>
    (⟨200, .success filename ("data/" ++ filename)⟩, [(filename, bytes)])
  | .error (.valueError m) => (⟨400, .failure m⟩, [])
  | .error (.otherError _) => (⟨500, .failure msgInternal⟩, [])
/-- The fixed guidance-template header of `ootd` (the triple-quoted Chinese
prompt in `plugins_func/functions/ootd.py`, verbatim including its source
indentation). -/
def guidanceHeader : String :=
  "你现在是一位「场景化穿搭顾问」，核心能力是基于用户提供的个人描述（含身材、场景、风格、季节等信息），输出“精准适配、可落地、有细节”的穿搭方案。你的工作逻辑是：先完整拆解用户描述中的关键信息，再围绕核心需求（如遮肉、显高、符合场合）构建搭配，最终以清晰结构呈现建议，具体规则如下：\n\n            ## 一、信息拆解要求\n            在接收用户描述后，需先提炼3类核心信息（若用户未明确提及某类，可基于常识补充“通用适配方案”，并标注“若你有XX需求，可调整为XX”）：\n            1. **个人基础信息**：身高体重→判断体型（如160cm/60kg→微胖）；身材痛点（如腰腹肉多、胯宽、腿短）→明确穿搭优化重点；\n            2. **场景与目的**：场景（如职场面试、周末露营、闺蜜约会、冬季通勤）→确定穿搭正式度/功能性（如露营需耐磨、面试需专业）；目的（如“想显气质”“想藏肉”“想亮眼”）→锚定搭配核心方向；\n            3. **偏好与客观条件**：风格偏好（如极简、甜辣、复古、日系）→统一单品风格调性；季节/气温（如夏季35℃、冬季-5℃）→匹配面料（棉麻/雪纺、加绒/羊毛）；预算范围（如单件200元内、整套800元内）→推荐对应价位单品类型（基础款/轻奢款）。\n\n\n            ## 二、穿搭方案输出标准\n            1. **开头呼应**：先总结用户关键信息，让方案更具针对性，示例：“从你的描述中了解到，你身高158cm、体重52kg，想改善腿短问题，周末要去公园露营（需要舒服方便活动），喜欢日系休闲风，所在城市现在25℃左右，单品预算100-300元，下面为你推荐适配方案～”\n            2. **方案结构（分模块清晰呈现）**：\n            - **整体风格定位**：一句话概括（如“日系休闲露营风——舒适不拖沓，兼顾活动便利性与拍照氛围感”）；\n            - **核心单品清单**（每类单品需含“具体款式+颜色+适配理由+预算参考”）：\n                - 上衣：例“宽松短款条纹T恤（白色+浅蓝条纹）——短款版型提高腰线，显腿长；宽松设计不贴腰，活动自在；预算80-120元”；\n                - 下装：例“高腰直筒牛仔短裤（浅牛仔色，裤长到大腿中部）——高腰呼应短上衣，进一步拉长比例；直筒版型遮大腿肉，不挑腿型；预算150-200元”；\n                - 鞋履：例“低帮帆布运动鞋（白色）——轻便防滑，适合露营走路；白色百搭，不抢上衣亮点；预算100-150元”；\n                - 配饰（可选，需贴合场景）：例“草编渔夫帽（米色）——遮阳防晒，契合日系露营氛围；预算50-80元；帆布斜挎包（浅灰色）——容量大，能装手机、纸巾等露营小物，轻便不压肩；预算80-120元”；\n            - **细节优化技巧**：结合用户需求补充“避坑点+加分项”，例“短裤选‘微阔腿’而非‘紧身’，避免显大腿粗；上衣塞进1/3到裤子里，比全塞更自然，还能精准露腰线；如果怕晒，可外搭一件轻薄的浅卡其色防晒衫，拉链拉到胸口，不闷热也不破坏搭配”；\n            3. **结尾预留调整空间**：主动询问用户反馈，例“这个方案是否符合你的预期呀？如果想调整风格（比如更甜一点）、更换某类单品（比如不喜欢短裤），或者有其他需求，都可以告诉我，我再优化～”\n\n\n            ## 三、特殊情况处理规则\n            1. 若用户描述信息模糊（如只说“想穿去约会，喜欢好看的”）：先基于“约会场景”推荐通用温柔风方案，同时补充“如果能告诉我你的身高体重、所在季节，或者更具体的风格（比如甜妹/御姐），方案会更贴合你的需求哦～”；\n            2. 若用户有“矛盾需求”（如“想穿紧身裙显身材，但怕显腰腹肉”）：优先平衡需求，例“推荐‘高腰收腰A字紧身裙（面料选有弹性的针织棉）’——高腰收腰凸显曲线，A字裙摆从腰腹下方散开，刚好遮住赘肉；颜色选深肤色/黑色，显瘦效果更好”；\n            3. 若用户提及“小众场景”（如“汉服出游”“海边度假拍写真”）：需匹配场景专属单品，同时兼顾实用性，例“海边写真穿搭——上衣选短款露背吊带（浅粉色雪纺材质，带蕾丝花边），下装选高腰阔腿沙滩裤（白色薄款，裤脚带开叉），鞋履选银色夹脚凉鞋，配饰加珍珠项链+草帽；适配理由：浅粉显白，露背贴合海边氛围，阔腿裤防走光，雪纺面料风吹起来有飘逸感，拍照出片；预算参考：吊带80-120元，沙滩裤100-150元，凉鞋100-150元，配饰100-150元”。\n\n            请根据以下人物描述与场景，严格遵循以上规则生成穿搭建议，确保每一条建议都有“用户需求支撑”，不推荐无关、不实用或不符合用户偏好的单品。"

/-- The RFC 4648 base64 alphabet, as used by Python's `base64.b64encode`. -/
def base64Table : List Char :=
  "ABCDEFGHIJKLMNOPQRSTUVWXYZabcdefghijklmnopqrstuvwxyz0123456789+/".toList

def b64Char (n : Nat) : Char := base64Table.getD n 'A'

/-- Standard base64 encoding of a byte list, three bytes at a time with `=`
padding (the behaviour of Python's `base64.b64encode`, an external library
function used by both analysis paths). -/
def b64encodeChunks : List Nat → List Char
  | [] => []
  | [a] => [b64Char (a / 4), b64Char ((a % 4) * 16), '=', '=']
  | [a, b] => [b64Char (a / 4), b64Char ((a % 4) * 16 + b / 16), b64Char ((b % 16) * 4), '=']
  | a :: b :: c :: rest =>
    b64Char (a / 4) :: b64Char ((a % 4) * 16 + b / 16) ::
      b64Char ((b % 16) * 4 + c / 64) :: b64Char (c % 64) :: b64encodeChunks rest

def b64encode (data : List Nat) : String := String.mk (b64encodeChunks data)

/-- Modelled from the spec: the `Action` enum (here `PluginAction`, since Mathlib claims `Action`) of `plugins_func/register.py`
(not among the analysed sources).  The spec names `PluginAction.REQLLM`
`CONTINUE_CHAT` and `PluginAction.RESPONSE` `RESPOND_ERROR`; only these two are used
by `ootd`. -/
inductive PluginAction where
  | RESPONSE
  | REQLLM
deriving DecidableEq, Repr

/-- Modelled from the spec: `ActionResponse` of `plugins_func/register.py`
— an action plus optional `result` and `response` payloads. -/
structure ActionResponse where
  action : PluginAction
  result : Option String
  response : Option String
deriving DecidableEq, Repr

/-- Settings dict of one VLLM module; only its optional `type` key is read by
the analysed code (`vllm_cfg.get("type", select_vllm_module)`). -/
structure VllmCfg where
  type : Option String
deriving DecidableEq, Repr

/-- The slice of `conn.config` read by `_select_vllm`: the selected VLLM
module name (`selected_module.VLLM`, possibly the falsy empty string) and the
per-module settings table (`config["VLLM"]`; a missing or empty dict is
modelled as `none`). -/
structure ConnConfig where
  selectedVllm : Option String
  vllmCfg : String → Option VllmCfg

/-- A vision-model client: `respond(question, image_base64)` returning a
description or raising. -/
def VisionClient : Type := String → String → Except String String

/-- Environment of one `ootd` call: the data-directory contents, the
connection configuration (`getattr(conn, "config", None)`), and the external
`create_instance` factory, which may itself raise. -/
structure OotdEnv where
  fs : String → Option (List Nat)
  config : Option ConnConfig
  create : String → VllmCfg → Except String VisionClient

/-- `_select_vllm` of `plugins_func/functions/ootd.py`: resolve the selected
vision module from the connection config and construct a client, raising
`RuntimeError` messages on the three missing-configuration branches. -/
def select_vllm (env : OotdEnv) : Except String VisionClient :=
  match env.config with
  | none => .error "未找到连接配置，无法初始化视觉模型"
  | some cfg =>
    match cfg.selectedVllm with
    | none => .error "您还未设置默认的视觉分析模块"
    | some m =>
      if m = "" then .error "您还未设置默认的视觉分析模块"
      else
        match cfg.vllmCfg m with
        | none => .error "视觉分析模块配置缺失"
        | some vcfg => env.create (vcfg.type.getD m) vcfg

/-- `_read_image_to_base64` of `plugins_func/functions/ootd.py`: resolve the
file in the data directory, fail on a missing file, empty content, or content
over 5 MiB, and otherwise return the base64 encoding.  Note that, unlike
upload intake, no signature check is performed here. -/
def read_image_to_base64 (fs : String → Option (List Nat))
    (file_name : String) : Except String String :=
  match fs file_name with
  | none => .error ("未找到指定文件：" ++ file_name ++ "（应位于 data/ 目录）")
  | some data =>
    if data = [] then .error "读取图片失败或内容为空"
    else if data.length > 5 * 1024 * 1024 then .error "图片大小超过限制（最大5MB）"
    else .ok (b64encode data)

/-- The fixed descriptive question `ootd` sends to the vision model. -/
def ootdQuestion : String :=
  "请对图片中的人物进行详细描述，只关注人物的细节（性别、年龄段、身材特征、衣着单品、颜色、款式、风格等），不要描述背景或与人物无关的内容。"

/-- The default scene substituted by `status or "..."` when `status` is falsy. -/
def defaultScene : String := "日常通勤/外出（未提供具体场景）"

/-- Python `status or defaultScene`: `None` and `""` both yield the default. -/
def sceneOf (status : Option String) : String :=
  match status with
  | some s => if s = "" then defaultScene else s
  | none => defaultScene

/-- The assembled guidance prompt: template header followed by the two
f-string segments interpolating the description and the scene. -/
def guidanceText (desc scene : String) : String :=
  guidanceHeader ++ "【人物外貌】" ++ desc ++ "\n\n" ++ "【场景】" ++ scene ++ "\n\n"

/-- The `try` body of `ootd`: read and encode the image, select the vision
client, invoke it, and assemble the guidance prompt. -/
def ootdTry (env : OotdEnv) (file_name : String) (status : Option String) :
    Except String String := do
  let image_base64 ← read_image_to_base64 env.fs file_name
  let vllm ← select_vllm env
  let desc ← vllm ootdQuestion image_base64
  pure (guidanceText desc (sceneOf status))

/-- `ootd` of `plugins_func/functions/ootd.py`: on success an
`ActionResponse(PluginAction.REQLLM, guidance, None)`, and any exception is caught
and turned into `ActionResponse(PluginAction.RESPONSE, None, "生成失败：<cause>")`. -/
def ootd (env : OotdEnv) (file_name : String) (status : Option String) :
    ActionResponse :=
  match ootdTry env file_name status with
  | .ok guidance => ⟨PluginAction.REQLLM, some guidance, none⟩
  | .error e => ⟨PluginAction.RESPONSE, none, some ("生成失败：" ++ e)⟩

/-- Observable effects of `ImageTextMessageHandler.handle`: chat dispatches,
websocket error envelopes, file reads, and vision-model invocations. -/
inductive Effect where
  | startToChat (text : String)
  | wsSend (typ status message : String)
  | readFile (name : String)
  | visionCall (question imageBase64 : String)
deriving DecidableEq, Repr

/-- The fields of an incoming IMAGE message read by the handler. -/
structure ImgMsg where
  file_name : Option String
  status : Option String
  question : Option String
deriving DecidableEq, Repr

/-- Environment of one `handle` call: data-directory existence and contents,
connection config, and the `create_instance` factory. -/
structure ImgEnv where
  fsExists : String → Bool
  fsRead : String → List Nat
  config : ConnConfig
  create : String → VllmCfg → Except String VisionClient

/-- Python `sub in s` substring test. -/
def pyIn (sub s : String) : Bool := decide (sub.toList <:+: s.toList)

/-- Python `return` inside the handler: abort with the trace so far. -/
def pyReturn (trace : List Effect) : Except (List Effect × Option String) Unit :=
  .error (trace, none)

/-- Python f-string rendering of an optional string (`None` prints as such). -/
def pyStr : Option String → String
  | some s => s
  | none => "None"

/-- The body of `ImageTextMessageHandler.handle`
(`core/handle/textHandler/imageMessageHandler.py`), translated statement by
statement.  A Python `return` becomes `throw (trace, none)`; an exception
raised with message `m` becomes `throw (trace, some m)`; falling off the end
returns the trace.  Every statement of the source appears here, including the
ones after the first both-returning conditional. -/
def imageHandleBody (env : ImgEnv) (msg : ImgMsg) :
    Except (List Effect × Option String) (List Effect) := do
  let mut acc : List Effect := []
  let file_name := msg.file_name
  let status := msg.status.getD "逛街"
  let mut question := msg.question.getD "ootd"
  if ¬ pyIn "ootd" question then
    acc := acc ++ [.startToChat "您的提问不正确，我无法回答您"]
    pyReturn acc
  else
    question := "穿搭建议"
    acc := acc ++ [.startToChat
      (question ++ "：\n,file_name:" ++ pyStr file_name ++ "\n,status:" ++ status)]
    pyReturn acc
  if ¬ pyIn "ootd" question then
    acc := acc ++ [.startToChat "您的提问不正确，我无法回答您"]
    pyReturn acc
  else
    question := "请对图片中的人物进行详细描述，只关注图片中人物的细节，不包括背景信息"
  if ¬ pyTruthyStr file_name then
    acc := acc ++ [.wsSend "stt" "error" "缺少有效的 file_name 字段（data/目录下的图片文件名）"]
    pyReturn acc
  let fname := pyStr file_name
  if ¬ env.fsExists fname then
    acc := acc ++ [.wsSend "stt" "error" ("未找到指定文件：" ++ fname ++ "（应位于 data/ 目录）")]
    pyReturn acc
  acc := acc ++ [.readFile fname]
  let image_data := env.fsRead fname
  if image_data = [] then
    acc := acc ++ [.wsSend "stt" "error" "读取图片失败或内容为空"]
    pyReturn acc
  if image_data.length > 5 * 1024 * 1024 then
    acc := acc ++ [.wsSend "stt" "error" "图片大小超过限制（最大5MB）"]
    pyReturn acc
  if ¬ is_valid_image_file image_data then
    acc := acc ++ [.wsSend "llm" "error"
      "不支持的文件格式，请提供有效的图片文件（JPEG、PNG、GIF、BMP、TIFF、WEBP）"]
    pyReturn acc
  let image_base64 := b64encode image_data
  let select_vllm_module := env.config.selectedVllm
  if ¬ pyTruthyStr select_vllm_module then
    acc := acc ++ [.wsSend "llm" "error" "您还未设置默认的视觉分析模块"]
    pyReturn acc
  let moduleName := pyStr select_vllm_module
  match env.config.vllmCfg moduleName with
  | none =>
    throw (acc, some ("\x27" ++ moduleName ++ "\x27"))
  | some vcfg =>
    let vllm_type := vcfg.type.getD moduleName
    match env.create vllm_type vcfg with
    | .error m => throw (acc, some m)
    | .ok vllm =>
      acc := acc ++ [.visionCall question image_base64]
      match vllm question image_base64 with
      | .error m => throw (acc, some m)
      | .ok result =>
        acc := acc ++ [.startToChat
          ("根据图片里面的人物描述：" ++ result ++ ",评价一下穿搭，并给出穿搭建议")]
        pure acc

/-- `ImageTextMessageHandler.handle` with its surrounding `try`/`except`: a
propagating exception is answered by the unified `llm`-error envelope. -/
def imageHandle (env : ImgEnv) (msg : ImgMsg) : List Effect :=
  match imageHandleBody env msg with
  | .ok effs => effs
  | .error (effs, none) => effs
  | .error (effs, some emsg) =>
    effs ++ [.wsSend "llm" "error" ("处理图片解析时发生错误: " ++ emsg)]

/-- A signature matches in the detection loop exactly when it is a prefix, and
the first table entry wins. -/
theorem detectLoop_first (data : List Nat) :
    ∀ (table : List (List Nat × String)) (i : Nat) (sig : List Nat) (ext : String),
      table[i]? = some (sig, ext) → sig.isPrefixOf data = true →
      (∀ p ∈ table.take i, p.1.isPrefixOf data = false) →
      detectLoop table data = some ext := by
  intro table
  induction table with
  | nil => intro i sig ext h; simp at h
  | cons q rest ih =>
    intro i sig ext hget hmatch hbefore
    match i with
    | 0 =>
      simp only [List.getElem?_cons_zero, Option.some.injEq] at hget
      subst hget
      simp only [detectLoop]
      rw [hmatch]
      simp
    | j + 1 =>
      have hq : q.1.isPrefixOf data = false := by
        apply hbefore
        simp [List.take_succ_cons]
      simp only [detectLoop]
      rw [hq]
      simp only [Bool.false_eq_true, if_false]
      exact ih j sig ext (by simpa using hget) hmatch
        (fun p hp => hbefore p (by simp [List.take_succ_cons, hp]))

/-- If no signature in the table matches, the loop returns none. -/
theorem detectLoop_none (data : List Nat) :
    ∀ (table : List (List Nat × String)),
      (∀ p ∈ table, p.1.isPrefixOf data = false) → detectLoop table data = none := by
  intro table
  induction table with
  | nil => intro; rfl
  | cons q rest ih =>
    intro h
    have hq := h q (by simp)
    simp only [detectLoop]
    rw [hq]
    simp only [Bool.false_eq_true, if_false]
    exact ih (fun p hp => h p (by simp [hp]))

/-- A byte string shorter than a signature is never matched by it. -/
theorem isPrefixOf_false_of_short (sig data : List Nat) (h : data.length < sig.length) :
    sig.isPrefixOf data = false := by
  by_contra hcon
  rw [Bool.not_eq_false, List.isPrefixOf_iff_prefix] at hcon
  exact absurd hcon.length_le (by omega)

/-- C7: `_detect_ext` returns the tag of the first table entry, in declaration
order, whose magic bytes are a prefix of the data, and `none` when no entry
matches; each of the eight documented magic-byte prefixes yields its tag, and
every byte sequence shorter than every table signature yields `none`. -/
theorem detect_ext_first_match :
    (∀ (data : List Nat) (i : Nat) (sig : List Nat) (ext : String),
      signatures[i]? = some (sig, ext) → sig.isPrefixOf data = true →
      (∀ p ∈ signatures.take i, p.1.isPrefixOf data = false) →
      detect_ext data = some ext)
    ∧ (∀ data : List Nat,
        (∀ p ∈ signatures, p.1.isPrefixOf data = false) → detect_ext data = none)
    ∧ detect_ext [0xff, 0xd8, 0xff] = some "jpg"
    ∧ detect_ext [0x89, 0x50, 0x4e, 0x47, 0x0d, 0x0a, 0x1a, 0x0a] = some "png"
    ∧ detect_ext [0x47, 0x49, 0x46, 0x38, 0x37, 0x61] = some "gif"
    ∧ detect_ext [0x47, 0x49, 0x46, 0x38, 0x39, 0x61] = some "gif"
    ∧ detect_ext [0x42, 0x4d] = some "bmp"
    ∧ detect_ext [0x49, 0x49, 0x2a, 0x00] = some "tiff"
    ∧ detect_ext [0x4d, 0x4d, 0x00, 0x2a] = some "tiff"
    ∧ detect_ext [0x52, 0x49, 0x46, 0x46] = some "webp"
    ∧ (∀ data : List Nat,
        (∀ p ∈ signatures, data.length < p.1.length) → detect_ext data = none) := by
  refine ⟨?_, ?_, by decide, by decide, by decide, by decide, by decide, by decide,
    by decide, by decide, ?_⟩
  · intro data i sig ext hget hmatch hbefore
    exact detectLoop_first data signatures i sig ext hget hmatch hbefore
  · intro data h
    exact detectLoop_none data signatures h
  · intro data h
    exact detectLoop_none data signatures
      (fun p hp => isPrefixOf_false_of_short p.1 data (h p hp))

/-- A detection at a concrete input via the first-match clause, a no-match
outcome via the short-input clause. -/
theorem detect_ext_first_match_witness :
    detect_ext [0x42, 0x4d, 0x99] = some "bmp" ∧ detect_ext [0x42] = none := by
  constructor
  · exact detect_ext_first_match.1 [0x42, 0x4d, 0x99] 4 [0x42, 0x4d] "bmp"
      (by decide) (by decide) (by decide)
  · exact detect_ext_first_match.2.2.2.2.2.2.2.2.2.2 [0x42] (by decide)

/-- A list is always a prefix of itself extended. -/
theorem isPrefixOf_append_self (l t : List Nat) : l.isPrefixOf (l ++ t) = true := by
  induction l with
  | nil => simp
  | cons a as ih => simp [List.isPrefixOf, ih]

/-- A JPEG-signed payload of exactly 5 MiB. -/
def jpgAtLimit : List Nat := [0xff, 0xd8, 0xff] ++ List.replicate (MAX_FILE_SIZE - 3) 0

/-- A JPEG-signed payload of 5 MiB plus one byte. -/
def jpgOverLimit : List Nat := jpgAtLimit ++ [0]

/-- An upload request whose single part is named `image`, declares filename
`f.jpg`, and carries the given bytes. -/
def uploadEnvOf (data : List Nat) : UploadEnv :=
  { multipart := .parts [{ name := some "image", filename := some "f.jpg", body := data }],
    millis := 1, hex8 := "abcd1234", writeError := none }

/-- A data directory holding exactly one file. -/
def fsWith (n : String) (data : List Nat) : String → Option (List Nat) :=
  fun m => if m = n then some data else none

theorem jpgAtLimit_length : jpgAtLimit.length = 5 * 1024 * 1024 := by
  rw [jpgAtLimit, List.length_append, List.length_replicate]
  norm_num [MAX_FILE_SIZE]

theorem jpgAtLimit_ne : jpgAtLimit ≠ [] := by
  intro h
  have h2 := jpgAtLimit_length
  rw [h] at h2
  simp at h2

theorem jpgAtLimit_bne : (jpgAtLimit != []) = true := by rfl

theorem jpgAtLimit_detect : detect_ext jpgAtLimit = some "jpg" := by
  have h : [0xff, 0xd8, 0xff].isPrefixOf jpgAtLimit = true :=
    isPrefixOf_append_self [0xff, 0xd8, 0xff] (List.replicate (MAX_FILE_SIZE - 3) 0)
  simp only [detect_ext, signatures, detectLoop]
  rw [h]
  simp

theorem jpgAtLimit_valid : is_valid_image_file jpgAtLimit = true := by
  simp only [is_valid_image_file, jpgAtLimit_bne, jpgAtLimit_length, jpgAtLimit_detect,
    MAX_FILE_SIZE, Option.isSome_some, Bool.and_true, Bool.true_and]
  norm_num

theorem jpgOverLimit_length : jpgOverLimit.length = 5 * 1024 * 1024 + 1 := by
  rw [jpgOverLimit, List.length_append, jpgAtLimit_length]
  rfl

theorem jpgOverLimit_ne : jpgOverLimit ≠ [] := by
  intro h
  have h2 := jpgOverLimit_length
  rw [h] at h2
  simp at h2

/-- Selecting the only part of a single-part upload with declared filename. -/
theorem findTarget_fjpg (data : List Nat) :
    findTarget [(⟨some "image", some "f.jpg", data⟩ : FormPart)]
    = some ⟨some "image", some "f.jpg", data⟩ := by
  simp only [findTarget]
  rw [if_pos (show pyTruthyStr (some "f.jpg") = true from rfl)]

/-- The 5 MiB payload flows through the whole `try` body of `handle_post`. -/
theorem handle_post_try_atLimit : handle_post_try (uploadEnvOf jpgAtLimit)
    = .ok (unique_filename 1 "abcd1234" (some "f.jpg") jpgAtLimit, jpgAtLimit) := by
  simp only [handle_post_try, uploadEnvOf, findTarget_fjpg]
  rw [if_neg jpgAtLimit_ne,
    if_neg (show ¬ jpgAtLimit.length > MAX_FILE_SIZE by
      rw [jpgAtLimit_length]; simp [MAX_FILE_SIZE]),
    if_neg (show ¬ ¬ is_valid_image_file jpgAtLimit = true by rw [jpgAtLimit_valid]; simp)]

/-- The 5 MiB + 1 payload is stopped by the size check of `handle_post`. -/
theorem handle_post_try_overLimit : handle_post_try (uploadEnvOf jpgOverLimit)
    = .error (.valueError msgOversize) := by
  simp only [handle_post_try, uploadEnvOf, findTarget_fjpg]
  rw [if_neg jpgOverLimit_ne,
    if_pos (show jpgOverLimit.length > MAX_FILE_SIZE by
      rw [jpgOverLimit_length]; simp [MAX_FILE_SIZE])]

/-- C6: the 5 MiB bound is inclusive at both checkpoints — a payload of exactly
5 MiB passes the validator, upload intake, and analysis read-back, while
5 MiB + 1 is rejected, at upload with the client error naming the MB limit
(`5.0MB`), at read-back with the 5MB error. -/
theorem size_bound_inclusive :
    jpgAtLimit.length = 5 * 1024 * 1024
    ∧ is_valid_image_file jpgAtLimit = true
    ∧ (handle_post (uploadEnvOf jpgAtLimit)).1.status = 200
    ∧ read_image_to_base64 (fsWith "f.jpg" jpgAtLimit) "f.jpg" = .ok (b64encode jpgAtLimit)
    ∧ jpgOverLimit.length = 5 * 1024 * 1024 + 1
    ∧ is_valid_image_file jpgOverLimit = false
    ∧ (handle_post (uploadEnvOf jpgOverLimit)).1 = ⟨400, RespBody.failure msgOversize⟩
    ∧ pyIn "5.0MB" msgOversize = true
    ∧ read_image_to_base64 (fsWith "f.jpg" jpgOverLimit) "f.jpg"
        = .error "图片大小超过限制（最大5MB）" := by
  refine ⟨jpgAtLimit_length, jpgAtLimit_valid, ?_, ?_, jpgOverLimit_length, ?_, ?_,
    by decide, ?_⟩
  · rw [handle_post.eq_def, handle_post_try_atLimit]
  · show (if jpgAtLimit = [] then (Except.error "读取图片失败或内容为空" : Except String String)
        else if jpgAtLimit.length > 5 * 1024 * 1024 then Except.error "图片大小超过限制（最大5MB）"
        else Except.ok (b64encode jpgAtLimit)) = Except.ok (b64encode jpgAtLimit)
    rw [if_neg jpgAtLimit_ne,
      if_neg (show ¬ jpgAtLimit.length > 5 * 1024 * 1024 by rw [jpgAtLimit_length]; omega)]
  · simp only [is_valid_image_file, jpgOverLimit_length, MAX_FILE_SIZE]
    norm_num
  · rw [handle_post.eq_def, handle_post_try_overLimit]
  · show (if jpgOverLimit = [] then (Except.error "读取图片失败或内容为空" : Except String String)
        else if jpgOverLimit.length > 5 * 1024 * 1024 then Except.error "图片大小超过限制（最大5MB）"
        else Except.ok (b64encode jpgOverLimit)) = Except.error "图片大小超过限制（最大5MB）"
    rw [if_neg jpgOverLimit_ne,
      if_pos (show jpgOverLimit.length > 5 * 1024 * 1024 by rw [jpgOverLimit_length]; omega)]

/-- The PNG magic prefix. -/
def pngSig : List Nat := [0x89, 0x50, 0x4e, 0x47, 0x0d, 0x0a, 0x1a, 0x0a]

/-- Lower-casing the empty string yields the empty string (needed because
`String.mapAux` recursion does not reduce definitionally). -/
theorem toLower_empty : String.toLower "" = "" := by
  unfold String.toLower String.map
  rw [String.mapAux]
  rw [dif_pos (show "".atEnd 0 = true by decide)]

/-- C8 counterexample: the declared filename `photo.` is present and contains a
dot, so the claim predicts extension `""` (stored name `image_1_abcd1234.`),
but the code treats the empty extension as falsy and falls back to the
signature sniffer, producing `.png`. -/
theorem unique_filename_ext_counterexample :
    (some "photo." ≠ (none : Option String) ∧ "photo.".toList.contains '.' = true)
    ∧ afterLastDot "photo." = ""
    ∧ detect_ext pngSig = some "png"
    ∧ unique_filename 1 "abcd1234" (some "photo.") pngSig = "image_1_abcd1234.png"
    ∧ "image_1_abcd1234.png" ≠ "image_1_abcd1234." := by
  have h0 : afterLastDot "photo." = "" := by decide
  refine ⟨by decide, h0, by decide, ?_, by decide⟩
  simp only [unique_filename]
  rw [if_pos (show "photo." ≠ "" ∧ "photo.".toList.contains '.' = true by decide)]
  rw [h0, toLower_empty]
  decide

/-- The extension rule as amended: the lower-cased substring after the last
dot of the declared filename is used only when the filename is truthy,
contains a dot, and that substring is non-empty; otherwise the sniffer tag;
otherwise `bin`. -/
def extSpecAmended (original_filename : Option String) (data : List Nat) : String :=
  match original_filename with
  | some name =>
    if name ≠ "" ∧ name.toList.contains '.' = true ∧ (afterLastDot name).toLower ≠ "" then
      (afterLastDot name).toLower
    else
      match detect_ext data with
      | some t => t
      | none => "bin"
  | none =>
    match detect_ext data with
    | some t => t
    | none => "bin"

/-- C8 (amended): every generated stored filename has the exact form
`image_<epoch_millis>_<8-hex-random>.<ext>` with `<ext>` given by the amended
extension rule. -/
theorem unique_filename_form (millis : Nat) (hex8 : String)
    (ofn : Option String) (data : List Nat) :
    unique_filename millis hex8 ofn data
      = "image_" ++ toString millis ++ "_" ++ hex8 ++ "." ++ extSpecAmended ofn data := by
  cases ofn with
  | none =>
    cases hdet : detect_ext data <;> simp [unique_filename, extSpecAmended, hdet]
  | some name =>
    by_cases hne : name = ""
    · subst hne
      cases hdet : detect_ext data <;> simp [unique_filename, extSpecAmended, hdet]
    · by_cases hdot : '.' ∈ name.data
      · by_cases h2 : (afterLastDot name).toLower = ""
        · cases hdet : detect_ext data <;>
            simp [unique_filename, extSpecAmended, hdet, hne, hdot, h2]
        · simp [unique_filename, extSpecAmended, hne, hdot, h2]
      · cases hdet : detect_ext data <;>
          simp [unique_filename, extSpecAmended, hdet, hne, hdot]

/-- The selection condition of the part loop: a truthy (non-empty) declared
filename, or the field name `image`. -/
def isFileField (p : FormPart) : Prop :=
  pyTruthyStr p.filename = true ∨ p.name = some "image"

instance (p : FormPart) : Decidable (isFileField p) := by
  unfold isFileField
  infer_instance

/-- C9: `handle_post` selects the first part, in stream order, with a
non-empty declared filename or the field name `image`; when no part qualifies
the request fails with the 400 missing-image-field error. -/
theorem findTarget_first_match :
    (∀ (parts : List FormPart) (p : FormPart), findTarget parts = some p →
      isFileField p ∧ ∃ pre post, parts = pre ++ p :: post ∧ ∀ q ∈ pre, ¬ isFileField q)
    ∧ (∀ parts : List FormPart, findTarget parts = none → ∀ p ∈ parts, ¬ isFileField p)
    ∧ (∀ (env : UploadEnv) (ps : List FormPart), env.multipart = .parts ps →
        findTarget ps = none →
        handle_post env = (⟨400, RespBody.failure msgMissing⟩, [])) := by
  refine ⟨?_, ?_, ?_⟩
  · intro parts
    induction parts with
    | nil => intro p h; simp [findTarget] at h
    | cons q rest ih =>
      intro p h
      by_cases h1 : pyTruthyStr q.filename = true
      · rw [findTarget, if_pos h1] at h
        cases h
        exact ⟨Or.inl h1, [], rest, rfl, by simp⟩
      · by_cases h2 : q.name = some "image"
        · rw [findTarget, if_neg h1, if_pos (by simp [h2])] at h
          cases h
          exact ⟨Or.inr h2, [], rest, rfl, by simp⟩
        · rw [findTarget, if_neg h1, if_neg (by simp [h2])] at h
          obtain ⟨hp, pre, post, heq, hpre⟩ := ih p h
          refine ⟨hp, q :: pre, post, by rw [heq]; rfl, ?_⟩
          intro r hr
          rcases List.mem_cons.mp hr with hr | hr
          · subst hr
            intro hcon
            rcases hcon with hcon | hcon
            · exact h1 hcon
            · exact h2 hcon
          · exact hpre r hr
  · intro parts
    induction parts with
    | nil => intro _ p hp; simp at hp
    | cons q rest ih =>
      intro h p hp
      by_cases h1 : pyTruthyStr q.filename = true
      · rw [findTarget, if_pos h1] at h
        exact absurd h (by simp)
      · by_cases h2 : q.name = some "image"
        · rw [findTarget, if_neg h1, if_pos (by simp [h2])] at h
          exact absurd h (by simp)
        · rw [findTarget, if_neg h1, if_neg (by simp [h2])] at h
          rcases List.mem_cons.mp hp with hp | hp
          · subst hp
            intro hcon
            rcases hcon with hcon | hcon
            · exact h1 hcon
            · exact h2 hcon
          · exact ih h p hp
  · intro env ps hm hf
    rw [handle_post.eq_def, handle_post_try, hm]
    simp only [hf]

/-- A three-part stream whose first qualifying part is the second one, and an
all-unqualified stream driving `handle_post` to the 400 missing-image error. -/
theorem findTarget_first_match_witness :
    (isFileField (⟨some "image", none, [7]⟩ : FormPart)
      ∧ ∃ pre post,
          ([⟨some "a", none, [1]⟩, ⟨some "image", none, [7]⟩, ⟨none, some "x.png", [2]⟩]
            : List FormPart) = pre ++ (⟨some "image", none, [7]⟩ : FormPart) :: post
          ∧ ∀ q ∈ pre, ¬ isFileField q)
    ∧ handle_post ⟨.parts [⟨some "a", none, [1]⟩, ⟨none, none, [2]⟩], 1, "abcd1234", none⟩
        = (⟨400, RespBody.failure msgMissing⟩, []) := by
  constructor
  · exact findTarget_first_match.1
      [⟨some "a", none, [1]⟩, ⟨some "image", none, [7]⟩, ⟨none, some "x.png", [2]⟩]
      ⟨some "image", none, [7]⟩ (by decide)
  · exact findTarget_first_match.2.2
      ⟨.parts [⟨some "a", none, [1]⟩, ⟨none, none, [2]⟩], 1, "abcd1234", none⟩
      [⟨some "a", none, [1]⟩, ⟨none, none, [2]⟩] rfl (by decide)

/-- Every anticipated `ValueError` message of the upload `try` body is one of
the five fixed validation messages. -/
theorem handle_post_try_valueError (env : UploadEnv) (m : String)
    (h : handle_post_try env = .error (.valueError m)) :
    m = msgMalformed ∨ m = msgMissing ∨ m = msgEmpty ∨ m = msgOversize ∨ m = msgFormat := by
  rw [handle_post_try.eq_def] at h
  repeat' split at h
  all_goals simp_all
  all_goals (repeat' split at h)
  all_goals simp_all

/-- C4: `handle_post` answers every request in exactly one of three shapes — a
200 success, a 400 failure whose message is one of the five specific
validation reasons, or a 500 failure carrying only the fixed generic
internal-error text, never the exception's detail. -/
theorem handle_post_error_classes (env : UploadEnv) :
    (∃ fn bytes, handle_post env
        = (⟨200, RespBody.success fn ("data/" ++ fn)⟩, [(fn, bytes)]))
    ∨ ((handle_post env).1.status = 400
        ∧ ∃ m, (handle_post env).1.body = RespBody.failure m
          ∧ (m = msgMalformed ∨ m = msgMissing ∨ m = msgEmpty
              ∨ m = msgOversize ∨ m = msgFormat))
    ∨ (handle_post env).1 = ⟨500, RespBody.failure msgInternal⟩ := by
  cases htry : handle_post_try env with
  | ok v =>
    exact Or.inl ⟨v.1, v.2, by rw [handle_post.eq_def, htry]⟩
  | error e =>
    cases e with
    | valueError m =>
      refine Or.inr (Or.inl ⟨by rw [handle_post.eq_def, htry], m, by rw [handle_post.eq_def, htry], ?_⟩)
      exact handle_post_try_valueError env m htry
    | otherError m =>
      exact Or.inr (Or.inr (by rw [handle_post.eq_def, htry]))

/-- C10: on every 400 rejection path of `handle_post` no file write is
reached, and whenever a write happened the response is the 200 success. -/
theorem upload_rejection_atomic (env : UploadEnv) :
    ((handle_post env).1.status = 400 → (handle_post env).2 = [])
    ∧ ((handle_post env).2 ≠ [] → (handle_post env).1.status = 200) := by
  cases htry : handle_post_try env with
  | ok v =>
    rw [handle_post.eq_def, htry]
    exact ⟨fun h => by simp at h, fun _ => rfl⟩
  | error e =>
    cases e with
    | valueError m =>
      rw [handle_post.eq_def, htry]
      exact ⟨fun _ => rfl, fun h => absurd rfl h⟩
    | otherError m =>
      rw [handle_post.eq_def, htry]
      exact ⟨fun h => by simp at h, fun h => absurd rfl h⟩

/-- A rejected (missing-part) upload writes nothing, and an upload whose write
list is non-empty is the 200 success. -/
theorem upload_rejection_atomic_witness :
    (handle_post ⟨.parts [], 1, "abcd1234", none⟩).2 = []
    ∧ (handle_post (uploadEnvOf [0xff, 0xd8, 0xff])).1.status = 200 := by
  constructor
  · exact (upload_rejection_atomic ⟨.parts [], 1, "abcd1234", none⟩).1 (by decide)
  · exact (upload_rejection_atomic (uploadEnvOf [0xff, 0xd8, 0xff])).2 (by decide)

/-- Read-back succeeds on any present, non-empty, within-bound file — with no
condition on its signature. -/
theorem read_image_to_base64_ok (fs : String → Option (List Nat))
    (file_name : String) (data : List Nat)
    (hfs : fs file_name = some data) (hne : data ≠ [])
    (hsz : ¬ data.length > 5 * 1024 * 1024) :
    read_image_to_base64 fs file_name = .ok (b64encode data) := by
  rw [read_image_to_base64.eq_def, hfs]
  simp only []
  rw [if_neg hne, if_neg hsz]

/-- The `try` body of `ootd` on the happy path. -/
theorem ootdTry_ok (env : OotdEnv) (file_name : String) (data : List Nat)
    (client : VisionClient) (desc : String) (status : Option String)
    (hfs : env.fs file_name = some data) (hne : data ≠ [])
    (hsz : ¬ data.length > 5 * 1024 * 1024)
    (hsel : select_vllm env = .ok client)
    (hresp : client ootdQuestion (b64encode data) = .ok desc) :
    ootdTry env file_name status = .ok (guidanceText desc (sceneOf status)) := by
  rw [ootdTry]
  rw [read_image_to_base64_ok env.fs file_name data hfs hne hsz]
  simp only [bind, Except.bind]
  rw [hsel]
  simp only []
  rw [hresp]
  rfl

/-- C3: `ootd` always returns an `ActionResponse`; on any failure it is the
`Action.RESPONSE` directive whose text is the cause prefixed by `生成失败：`,
and no exception escapes. -/
theorem ootd_failure_policy (env : OotdEnv) (file_name : String)
    (status : Option String) :
    (∃ g, ootd env file_name status = ⟨PluginAction.REQLLM, some g, none⟩)
    ∨ (∃ e, ootd env file_name status
        = ⟨PluginAction.RESPONSE, none, some ("生成失败：" ++ e)⟩) := by
  cases h : ootdTry env file_name status with
  | ok g => exact Or.inl ⟨g, by rw [ootd.eq_def, h]⟩
  | error e => exact Or.inr ⟨e, by rw [ootd.eq_def, h]⟩

/-- A vision client that always answers with a fixed description. -/
def stubClient (desc : String) : VisionClient := fun _ _ => .ok desc

/-- An `ootd` environment with one stored file, a configured module `m`, and a
stubbed vision client. -/
def stubEnv (fname : String) (data : List Nat) (desc : String) : OotdEnv :=
  { fs := fsWith fname data,
    config := some { selectedVllm := some "m", vllmCfg := fun _ => some ⟨none⟩ },
    create := fun _ _ => .ok (stubClient desc) }

/-- C5: a successful `ootd` call returns the `Action.REQLLM` directive whose
guidance text contains the model's description and the scene hint verbatim,
the scene being the default phrase when the hint is absent. -/
theorem ootd_guidance_contains (env : OotdEnv) (file_name : String)
    (data : List Nat) (client : VisionClient) (desc : String)
    (status : Option String)
    (hfs : env.fs file_name = some data) (hne : data ≠ [])
    (hsz : ¬ data.length > 5 * 1024 * 1024)
    (hsel : select_vllm env = .ok client)
    (hresp : client ootdQuestion (b64encode data) = .ok desc) :
    ootd env file_name status
      = ⟨PluginAction.REQLLM, some (guidanceText desc (sceneOf status)), none⟩
    ∧ desc.toList <:+: (guidanceText desc (sceneOf status)).toList
    ∧ (sceneOf status).toList <:+: (guidanceText desc (sceneOf status)).toList
    ∧ (status = none → sceneOf status = defaultScene) := by
  refine ⟨?_, ?_, ?_, ?_⟩
  · rw [ootd.eq_def,
      ootdTry_ok env file_name data client desc status hfs hne hsz hsel hresp]
  · refine ⟨(guidanceHeader ++ "【人物外貌】").toList,
      ("\n\n" ++ "【场景】" ++ sceneOf status ++ "\n\n").toList, ?_⟩
    simp [guidanceText, String.toList]
  · refine ⟨(guidanceHeader ++ "【人物外貌】" ++ desc ++ "\n\n" ++ "【场景】").toList,
      "\n\n".toList, ?_⟩
    simp [guidanceText, String.toList]
  · intro h
    rw [h]
    rfl

/-- A stubbed analysis run: scene hint `面试` and description `描述X` both
appear verbatim in the produced guidance. -/
theorem ootd_guidance_contains_witness :
    ootd (stubEnv "a.jpg" [0xff, 0xd8, 0xff] "描述X") "a.jpg" (some "面试")
      = ⟨PluginAction.REQLLM, some (guidanceText "描述X" (sceneOf (some "面试"))), none⟩
    ∧ "描述X".toList <:+: (guidanceText "描述X" (sceneOf (some "面试"))).toList
    ∧ (sceneOf (some "面试")).toList
        <:+: (guidanceText "描述X" (sceneOf (some "面试"))).toList
    ∧ (some "面试" = none → sceneOf (some "面试") = defaultScene) :=
  ootd_guidance_contains (stubEnv "a.jpg" [0xff, 0xd8, 0xff] "描述X") "a.jpg"
    [0xff, 0xd8, 0xff] (stubClient "描述X") "描述X" (some "面试")
    rfl (by decide) (by decide) rfl rfl

/-- C1 counterexample: the bytes `00 01 02` carry no recognized image
signature and fail the ImageValidator, yet the `ootd` pipeline does not fail —
it invokes the vision model and returns the success directive, because
`_read_image_to_base64` never applies the signature check. -/
theorem ootd_no_signature_check_cex :
    detect_ext [0x00, 0x01, 0x02] = none
    ∧ is_valid_image_file [0x00, 0x01, 0x02] = false
    ∧ ootd (stubEnv "x.bin" [0x00, 0x01, 0x02] "描述") "x.bin" none
        = ⟨PluginAction.REQLLM, some (guidanceText "描述" defaultScene), none⟩ := by
  refine ⟨by decide, by decide, ?_⟩
  rfl

/-- C1 (amended): the analysis read-back re-applies only the existence,
non-emptiness, and inclusive 5 MiB checks of intake — not the ImageValidator
signature check; every present, non-empty, within-bound payload is encoded
and passed on to the vision model regardless of its signature. -/
theorem read_image_validation_amended :
    (∀ (fs : String → Option (List Nat)) (file_name : String) (data : List Nat),
      fs file_name = some data → data ≠ [] → ¬ data.length > 5 * 1024 * 1024 →
      read_image_to_base64 fs file_name = .ok (b64encode data))
    ∧ (∀ (fs : String → Option (List Nat)) (file_name : String),
      fs file_name = none →
      read_image_to_base64 fs file_name
        = .error ("未找到指定文件：" ++ file_name ++ "（应位于 data/ 目录）"))
    ∧ (∀ (fs : String → Option (List Nat)) (file_name : String) (data : List Nat),
      fs file_name = some data → data = [] →
      read_image_to_base64 fs file_name = .error "读取图片失败或内容为空")
    ∧ (∀ (fs : String → Option (List Nat)) (file_name : String) (data : List Nat),
      fs file_name = some data → data.length > 5 * 1024 * 1024 →
      read_image_to_base64 fs file_name = .error "图片大小超过限制（最大5MB）") := by
  refine ⟨read_image_to_base64_ok, ?_, ?_, ?_⟩
  · intro fs file_name hfs
    rw [read_image_to_base64.eq_def, hfs]
  · intro fs file_name data hfs hdata
    rw [read_image_to_base64.eq_def, hfs]
    simp only []
    rw [if_pos hdata]
  · intro fs file_name data hfs hlen
    have hne : data ≠ [] := by
      intro h
      rw [h] at hlen
      simp at hlen
    rw [read_image_to_base64.eq_def, hfs]
    simp only []
    rw [if_neg hne, if_pos hlen]

/-- The unsigned payload `00 01 02` passes read-back, a missing file and an
empty file are refused, exercising the amended read-back contract. -/
theorem read_image_validation_amended_witness :
    read_image_to_base64 (fsWith "x.bin" [0x00, 0x01, 0x02]) "x.bin"
      = .ok (b64encode [0x00, 0x01, 0x02])
    ∧ read_image_to_base64 (fsWith "x.bin" [0x00, 0x01, 0x02]) "y.bin"
      = .error ("未找到指定文件：" ++ "y.bin" ++ "（应位于 data/ 目录）")
    ∧ read_image_to_base64 (fsWith "z.bin" []) "z.bin"
      = .error "读取图片失败或内容为空" :=
  ⟨read_image_validation_amended.1 (fsWith "x.bin" [0x00, 0x01, 0x02]) "x.bin"
      [0x00, 0x01, 0x02] rfl (by decide) (by decide),
   read_image_validation_amended.2.1 (fsWith "x.bin" [0x00, 0x01, 0x02]) "y.bin" rfl,
   read_image_validation_amended.2.2.1 (fsWith "z.bin" []) "z.bin" [] rfl rfl⟩

/-- C2: for every environment and IMAGE message the handler stops at the first
conditional — it answers with either the invalid-question reply or the single
echo message, so no file read, no vision call, and no error envelope ever
occurs. -/
theorem image_handler_dead_code (env : ImgEnv) (msg : ImgMsg) :
    imageHandle env msg = [Effect.startToChat "您的提问不正确，我无法回答您"]
    ∨ imageHandle env msg = [Effect.startToChat
        ("穿搭建议：\n,file_name:" ++ pyStr msg.file_name ++ "\n,status:"
          ++ msg.status.getD "逛街")] := by
  by_cases h : pyIn "ootd" (msg.question.getD "ootd") = true
  · right
    simp [imageHandle, imageHandleBody, h, pyReturn, bind, Except.bind]
  · left
    simp [imageHandle, imageHandleBody, h, pyReturn, bind, Except.bind]
